import Mathlib

/-!
Shallow embedding of the realtime signaling core of the repository:
the connection registry, room membership and broadcast, the WebRTC
signaling relay, the call state machine (src/backend/app), and the
serverless room counters (src/lambda).  Python dicts are modelled as
association lists with replace-on-insert semantics; Python truthiness
of `if x:` on optional ints/strings is modelled explicitly.
-/

namespace InterviewMe

/-- Dict write `m[k] = v`: replaces any existing binding of `k`. -/
def mapSet {α β : Type} [DecidableEq α] (k : α) (v : β) (m : List (α × β)) : List (α × β) :=
  (k, v) :: m.filter (fun p => decide (p.1 ≠ k))

/-- Dict read `m.get(k)`. -/
def mapGet {α β : Type} [DecidableEq α] (k : α) (m : List (α × β)) : Option β :=
  (m.find? (fun p => decide (p.1 = k))).map Prod.snd

/-- Dict delete `m.pop(k, None)` (the removal part). -/
def mapErase {α β : Type} [DecidableEq α] (k : α) (m : List (α × β)) : List (α × β) :=
  m.filter (fun p => decide (p.1 ≠ k))

/-- Python truthiness of an optional int: `if x:` is false for `None` and `0`. -/
def truthyNat : Option Nat → Bool
  | some n => n != 0
  | none => false

/-- Python truthiness of an optional string: `if x:` is false for `None` and `""`. -/
def truthyStr : Option String → Bool
  | some s => s != ""
  | none => false

/-! ## Connection Registry (`ConnectionManager`, src/backend/app/websocket/manager.py) -/

/-- In-memory state of `ConnectionManager`. -/
structure ConnectionManager where
  user_connections : List (Nat × String)
  sid_to_user : List (String × Nat)
  conversation_rooms : List (Nat × List String)
deriving DecidableEq

/-- `ConnectionManager.add_connection`: store both directions of the mapping. -/
def add_connection (sid : String) (user_id : Nat) (m : ConnectionManager) : ConnectionManager :=
  { m with
    user_connections := mapSet user_id sid m.user_connections
    sid_to_user := mapSet sid user_id m.sid_to_user }

/-- `ConnectionManager.remove_connection`: pop the reverse entry; the forward
entry is popped only when the popped user id is truthy (`if user_id:`). -/
def remove_connection (sid : String) (m : ConnectionManager) : ConnectionManager :=
  let user_id := mapGet sid m.sid_to_user
  let m1 := { m with sid_to_user := mapErase sid m.sid_to_user }
  match user_id with
  | some u =>
    if u ≠ 0 then { m1 with user_connections := mapErase u m1.user_connections } else m1
  | none => m1

/-- `ConnectionManager.get_user_sid`. -/
def get_user_sid (user_id : Nat) (m : ConnectionManager) : Option String :=
  mapGet user_id m.user_connections

/-- `ConnectionManager.get_user_id`. -/
def get_user_id (sid : String) (m : ConnectionManager) : Option Nat :=
  mapGet sid m.sid_to_user

/-- `ConnectionManager.join_conversation`: add `sid` to the room set,
creating the set if absent. -/
def join_conversation_room (conversation_id : Nat) (sid : String) (m : ConnectionManager) :
    ConnectionManager :=
  let cur := (mapGet conversation_id m.conversation_rooms).getD []
  let nxt := if sid ∈ cur then cur else cur ++ [sid]
  { m with conversation_rooms := mapSet conversation_id nxt m.conversation_rooms }

/-- `ConnectionManager.leave_conversation`: discard `sid` from the room set if present. -/
def leave_conversation_room (conversation_id : Nat) (sid : String) (m : ConnectionManager) :
    ConnectionManager :=
  match mapGet conversation_id m.conversation_rooms with
  | some cur =>
    { m with conversation_rooms :=
        mapSet conversation_id (cur.filter (fun x => decide (x ≠ sid))) m.conversation_rooms }
  | none => m

/-! ## WebRTC signaling service (src/backend/app/services/webrtc_signaling.py) -/

/-- State of `WebRTCSignalingService`: active peer sets and the
pending ICE candidate queues, keyed by call id then user id. -/
structure WebRTCSignalingService where
  active_calls : List (Nat × List (Nat × String))
  pending_ice_candidates : List (Nat × List (Nat × List String))
deriving DecidableEq

/-- `add_peer_to_call`: upsert a peer into the call's peer set (creating it). -/
def add_peer_to_call (call_id user_id : Nat) (connection_info : String)
    (w : WebRTCSignalingService) : WebRTCSignalingService :=
  let peers := (mapGet call_id w.active_calls).getD []
  { w with active_calls := mapSet call_id (mapSet user_id connection_info peers) w.active_calls }

/-- `remove_peer_from_call`: pop the peer; if the peer set empties, drop the
call from both `active_calls` and `pending_ice_candidates`. -/
def remove_peer_from_call (call_id user_id : Nat) (w : WebRTCSignalingService) :
    WebRTCSignalingService :=
  match mapGet call_id w.active_calls with
  | some peers =>
    let peers1 := mapErase user_id peers
    if peers1 = [] then
      { w with
        active_calls := mapErase call_id w.active_calls
        pending_ice_candidates := mapErase call_id w.pending_ice_candidates }
    else
      { w with active_calls := mapSet call_id peers1 w.active_calls }
  | none => w

/-- `get_call_peers`: the peer set, or empty. -/
def get_call_peers (call_id : Nat) (w : WebRTCSignalingService) : List (Nat × String) :=
  (mapGet call_id w.active_calls).getD []

/-- `add_ice_candidate`: append the candidate to the (call, user) queue,
creating the nested dicts as needed. -/
def add_ice_candidate (call_id user_id : Nat) (candidate : String)
    (w : WebRTCSignalingService) : WebRTCSignalingService :=
  let byUser := (mapGet call_id w.pending_ice_candidates).getD []
  let queue := (mapGet user_id byUser).getD []
  { w with pending_ice_candidates :=
      mapSet call_id (mapSet user_id (queue ++ [candidate]) byUser) w.pending_ice_candidates }

/-- `get_ice_candidates`: return the queue and clear it (drain). -/
def get_ice_candidates (call_id user_id : Nat) (w : WebRTCSignalingService) :
    List String × WebRTCSignalingService :=
  match mapGet call_id w.pending_ice_candidates with
  | none => ([], w)
  | some byUser =>
    let candidates := (mapGet user_id byUser).getD []
    match mapGet user_id byUser with
    | some _ =>
      (candidates,
       { w with pending_ice_candidates :=
           mapSet call_id (mapSet user_id [] byUser) w.pending_ice_candidates })
    | none => (candidates, w)

/-- `end_call`: drop the call from both maps. -/
def webrtc_end_call (call_id : Nat) (w : WebRTCSignalingService) : WebRTCSignalingService :=
  { w with
    active_calls := mapErase call_id w.active_calls
    pending_ice_candidates := mapErase call_id w.pending_ice_candidates }

/-! ## Data model (src/backend/app/models/models.py) -/

/-- `CallStatus` enum. -/
inductive CallStatus where
  | initiated
  | ringing
  | active
  | ended
  | missed
  | rejected
deriving DecidableEq

/-- A call is live when its status is INITIATED, RINGING or ACTIVE
(the list used by `initiate_call`'s admission query). -/
def isLive : CallStatus → Bool
  | .initiated => true
  | .ringing => true
  | .active => true
  | _ => false

/-- Row of the `calls` table.  Times are seconds (UTC). -/
structure CallRecord where
  id : Nat
  conversation_id : Nat
  initiator_id : Option Nat
  status : CallStatus
  started_at : Option Nat
  ended_at : Option Nat
  duration : Option Nat
deriving DecidableEq

/-- Row of the `messages` table (the fields `send_message` emits). -/
structure MessageRecord where
  id : Nat
  conversation_id : Nat
  sender_id : Nat
  content : Option String
deriving DecidableEq

/-- `db.query(Call).filter(Call.id == call_id).first()`. -/
def findCall (call_id : Nat) (calls : List CallRecord) : Option CallRecord :=
  calls.find? (fun k => decide (k.id = call_id))

/-- Update the first row matching `call_id` (the row `.first()` returned). -/
def updateFirstCall (call_id : Nat) (f : CallRecord → CallRecord) :
    List CallRecord → List CallRecord
  | [] => []
  | k :: rest =>
    if k.id = call_id then f k :: rest else k :: updateFirstCall call_id f rest

/-- Participant-table membership check used by every router and handler:
`db.query(Participant).filter(conversation_id, user_id).first()` is non-null. -/
def isParticipant (participants : List (Nat × Nat)) (conversation_id user_id : Nat) : Bool :=
  participants.contains (conversation_id, user_id)

/-! ## Call routers (src/backend/app/routers/calls.py) -/

/-- Error taxonomy of the call endpoints (HTTPException details). -/
inductive CallError where
  | notAParticipant
  | callAlreadyActive
  | notFound
  | invalidTransition
deriving DecidableEq

/-- The database state the call routers read and write. -/
structure RouterDb where
  calls : List CallRecord
  participants : List (Nat × Nat)
  next_call_id : Nat
deriving DecidableEq

/-- `initiate_call`: participant check, then admission check (any call for the
conversation with live status), then insert a new INITIATED call. -/
def initiate_call (current_user conversation_id now : Nat) (db : RouterDb) :
    Except CallError CallRecord × RouterDb :=
  if ¬ isParticipant db.participants conversation_id current_user then
    (.error .notAParticipant, db)
  else
    match db.calls.find? (fun k => decide (k.conversation_id = conversation_id) && isLive k.status) with
    | some _ => (.error .callAlreadyActive, db)
    | none =>
      let call : CallRecord :=
        { id := db.next_call_id
          conversation_id := conversation_id
          initiator_id := some current_user
          status := .initiated
          started_at := some now
          ended_at := none
          duration := none }
      (.ok call, { db with calls := db.calls ++ [call], next_call_id := db.next_call_id + 1 })

/-- `accept_call`: 404 if absent, participant check, then the status guard
(INITIATED or RINGING required), then set status ACTIVE. -/
def accept_call (current_user call_id : Nat) (db : RouterDb) :
    Except CallError CallRecord × RouterDb :=
  match findCall call_id db.calls with
  | none => (.error .notFound, db)
  | some call =>
    if ¬ isParticipant db.participants call.conversation_id current_user then
      (.error .notAParticipant, db)
    else if call.status ≠ .initiated ∧ call.status ≠ .ringing then
      (.error .invalidTransition, db)
    else
      let updated := { call with status := CallStatus.active }
      let calls1 :=
        updateFirstCall call_id (fun k => { k with status := CallStatus.active }) db.calls
      (.ok updated, { db with calls := calls1 })

/-- `reject_call`: 404 if absent, participant check, then unconditionally set
status REJECTED and ended_at (the source has no status guard here). -/
def reject_call (current_user call_id now : Nat) (db : RouterDb) :
    Except CallError CallRecord × RouterDb :=
  match findCall call_id db.calls with
  | none => (.error .notFound, db)
  | some call =>
    if ¬ isParticipant db.participants call.conversation_id current_user then
      (.error .notAParticipant, db)
    else
      let updated := { call with status := CallStatus.rejected, ended_at := some now }
      let calls1 :=
        updateFirstCall call_id
          (fun k => { k with status := CallStatus.rejected, ended_at := some now }) db.calls
      (.ok updated, { db with calls := calls1 })

/-- `end_call`: 404 if absent, participant check, then unconditionally set
status ENDED and ended_at; duration is overwritten only when the supplied
duration is truthy (`if end_data.duration:`). -/
def end_call (current_user call_id : Nat) (duration_arg : Option Nat) (now : Nat)
    (db : RouterDb) : Except CallError CallRecord × RouterDb :=
  match findCall call_id db.calls with
  | none => (.error .notFound, db)
  | some call =>
    if ¬ isParticipant db.participants call.conversation_id current_user then
      (.error .notAParticipant, db)
    else
      let upd : CallRecord → CallRecord := fun k =>
        { k with
          status := CallStatus.ended
          ended_at := some now
          duration := if truthyNat duration_arg then duration_arg else k.duration }
      (.ok (upd call), { db with calls := updateFirstCall call_id upd db.calls })

/-- The in-place record update `call_ended` commits when the peer set has
emptied: set status ENDED and ended_at, and compute the duration from
started_at when present — guarded by `call.status != CallStatus.ENDED`.
`t1` is the clock read stored into ended_at, `t2` the later clock read used
for the duration. -/
def endCallDbUpdate (t1 t2 : Nat) : CallRecord → CallRecord := fun k =>
  if k.status ≠ CallStatus.ended then
    { k with
      status := CallStatus.ended
      ended_at := some t1
      duration := match k.started_at with
        | some s => some (t2 - s)
        | none => k.duration }
  else k

/-! ## WebSocket event handlers (src/backend/app/websocket/manager.py) -/

/-- One socket.io emission: the event name and the recipient sid. -/
structure Emit where
  event : String
  recipient : String
deriving DecidableEq

/-- Whole in-process server state touched by the handlers. -/
structure ServerState where
  manager : ConnectionManager
  webrtc : WebRTCSignalingService
  calls : List CallRecord
  participants : List (Nat × Nat)
  messages : List MessageRecord
  next_message_id : Nat
deriving DecidableEq

/-- Result returned to the emitting client. -/
inductive HandlerResult where
  | ok (status : String)
  | err (message : String)
deriving DecidableEq

/-- `disconnect` event handler: refresh last_seen (outside the modelled state)
and remove the connection.  It touches neither `conversation_rooms` nor the
signaling service nor the calls table. -/
def ws_disconnect (sid : String) (st : ServerState) : ServerState :=
  { st with manager := remove_connection sid st.manager }

/-- `join_conversation` event handler. -/
def ws_join_conversation (sid : String) (conversation_id : Option Nat) (st : ServerState) :
    HandlerResult × ServerState :=
  match get_user_id sid st.manager with
  | none => (.err "Not authenticated", st)
  | some u =>
    if u = 0 then (.err "Not authenticated", st)
    else if ¬ truthyNat conversation_id then (.err "Missing conversation_id", st)
    else
      let cid := conversation_id.getD 0
      if ¬ isParticipant st.participants cid u then (.err "Not a participant", st)
      else (.ok "joined", { st with manager := join_conversation_room cid sid st.manager })

/-- `send_message` event handler: participant check, persist the message, then
emit `new_message` to the whole room `conversation_{id}` with no excluded sid. -/
def ws_send_message (sid : String) (conversation_id : Option Nat) (content : Option String)
    (st : ServerState) : HandlerResult × ServerState × List Emit :=
  match get_user_id sid st.manager with
  | none => (.err "Not authenticated", st, [])
  | some u =>
    if u = 0 then (.err "Not authenticated", st, [])
    else if ¬ truthyNat conversation_id then (.err "Missing conversation_id", st, [])
    else
      let cid := conversation_id.getD 0
      if ¬ isParticipant st.participants cid u then (.err "Not a participant", st, [])
      else
        let message : MessageRecord :=
          { id := st.next_message_id, conversation_id := cid, sender_id := u, content := content }
        let room := (mapGet cid st.manager.conversation_rooms).getD []
        let emits := room.map (fun r => ({ event := "new_message", recipient := r } : Emit))
        (.ok "sent",
         { st with
           messages := st.messages ++ [message]
           next_message_id := st.next_message_id + 1 },
         emits)

/-- `ice_candidate` event handler.  Directed: if the target user has a live
session, emit to it; otherwise NOTHING happens (the payload is dropped — the
handler never calls `add_ice_candidate`).  Undirected: emit to every call peer
other than the sender that has a live session. -/
def ws_ice_candidate (sid : String) (call_id target_user_id : Option Nat)
    (candidate : Option String) (st : ServerState) :
    HandlerResult × ServerState × List Emit :=
  match get_user_id sid st.manager with
  | none => (.err "Not authenticated", st, [])
  | some u =>
    if u = 0 then (.err "Not authenticated", st, [])
    else if ¬ (truthyNat call_id && truthyStr candidate) then
      (.err "Missing required fields", st, [])
    else
      let cid := call_id.getD 0
      let broadcastEmits : List Emit :=
        (get_call_peers cid st.webrtc).foldr
          (fun p acc =>
            if p.1 ≠ u then
              match get_user_sid p.1 st.manager with
              | some psid => { event := "ice_candidate", recipient := psid } :: acc
              | none => acc
            else acc) []
      match target_user_id with
      | some target =>
        if target ≠ 0 then
          match get_user_sid target st.manager with
          | some tsid => (.ok "sent", st, [{ event := "ice_candidate", recipient := tsid }])
          | none => (.ok "sent", st, [])
        else (.ok "sent", st, broadcastEmits)
      | none => (.ok "sent", st, broadcastEmits)

/-- `call_ended` event handler.  `t1` is the clock read stored into `ended_at`,
`t2` the (later) clock read used to compute the duration. -/
def ws_call_ended (sid : String) (call_id : Option Nat) (t1 t2 : Nat) (st : ServerState) :
    HandlerResult × ServerState × List Emit :=
  match get_user_id sid st.manager with
  | none => (.err "Not authenticated", st, [])
  | some u =>
    if u = 0 then (.err "Not authenticated", st, [])
    else if ¬ truthyNat call_id then (.err "Missing call_id", st, [])
    else
      let cid := call_id.getD 0
      let webrtc1 := remove_peer_from_call cid u st.webrtc
      let peers := get_call_peers cid webrtc1
      let emits := peers.foldr
        (fun p acc =>
          match get_user_sid p.1 st.manager with
          | some psid => ({ event := "peer_left", recipient := psid } : Emit) :: acc
          | none => acc) []
      if peers = [] then
        let webrtc2 := webrtc_end_call cid webrtc1
        let calls1 := updateFirstCall cid (endCallDbUpdate t1 t2) st.calls
        (.ok "ended", { st with webrtc := webrtc2, calls := calls1 }, emits)
      else
        (.ok "ended", { st with webrtc := webrtc1 }, emits)

/-! ## Serverless room backend (src/lambda/room/handler.py, src/lambda/websocket/room_handler.py) -/

/-- The ROOM#id/METADATA item: the fields the handlers read and write.
`active_participants` is a DynamoDB number, modelled as an integer so that
"never negative" is a real statement. -/
structure RoomRecord where
  active_participants : Int
  max_participants : Int
  room_status : String
deriving DecidableEq

/-- HTTP response of the room lambda: status code and the error/message body. -/
structure LambdaResponse where
  statusCode : Nat
  body : String
deriving DecidableEq

/-- `join_room` (src/lambda/room/handler.py): 404 when absent, 403 'Room is
full' when `active_participants >= max_participants`, 403 when not active,
otherwise an unconditional `+ 1` counter update. -/
def join_room (room : Option RoomRecord) : LambdaResponse × Option RoomRecord :=
  match room with
  | none => ({ statusCode := 404, body := "Room not found" }, none)
  | some r =>
    if r.active_participants ≥ r.max_participants then
      ({ statusCode := 403, body := "Room is full" }, some r)
    else if r.room_status ≠ "active" then
      ({ statusCode := 403, body := "Room is not active" }, some r)
    else
      ({ statusCode := 200, body := "joined" },
       some { r with active_participants := r.active_participants + 1 })

/-- `leave_room` (src/lambda/room/handler.py): the decrement carries the
condition `active_participants > 0`; when the condition fails the raised
ConditionalCheckFailedException is caught and the handler still returns 200
'Left room successfully' with the counter untouched. -/
def leave_room (room : Option RoomRecord) : LambdaResponse × Option RoomRecord :=
  match room with
  | none => ({ statusCode := 404, body := "Room not found" }, none)
  | some r =>
    if r.active_participants > 0 then
      ({ statusCode := 200, body := "Left room successfully" },
       some { r with active_participants := r.active_participants - 1 })
    else
      ({ statusCode := 200, body := "Left room successfully" }, some r)

/-- `connect_handler` (src/lambda/websocket/room_handler.py): when a room id is
given and the room exists, refuse with 403 'Room is full' if
`active_participants >= max_participants` (before storing any connection
record); otherwise increment and store the connection.  The boolean reports
whether a connection record was stored. -/
def connect_handler (room_id : Option String) (room : Option RoomRecord) :
    LambdaResponse × Option RoomRecord × Bool :=
  match room_id with
  | none => ({ statusCode := 200, body := "" }, room, false)
  | some _ =>
    match room with
    | some r =>
      if r.active_participants ≥ r.max_participants then
        ({ statusCode := 403, body := "Room is full" }, some r, false)
      else
        ({ statusCode := 200, body := "" },
         some { r with active_participants := r.active_participants + 1 }, true)
    | none => ({ statusCode := 200, body := "" }, none, true)

/-- `disconnect_handler` (src/lambda/websocket/room_handler.py): when the
connection record names a room, decrement with the same `> 0` condition;
a failed condition is swallowed ("count already at 0") and the handler
returns 200 either way. -/
def disconnect_handler (conn_room_id : Option String) (room : Option RoomRecord) :
    LambdaResponse × Option RoomRecord :=
  match conn_room_id with
  | none => ({ statusCode := 200, body := "" }, room)
  | some _ =>
    match room with
    | some r =>
      if r.active_participants > 0 then
        ({ statusCode := 200, body := "" },
         some { r with active_participants := r.active_participants - 1 })
      else
        ({ statusCode := 200, body := "" }, some r)
    | none => ({ statusCode := 200, body := "" }, room)

/-- One counter-affecting operation on a room, over both deployment shapes. -/
inductive RoomOp where
  | httpJoin
  | httpLeave
  | wsConnect
  | wsDisconnect
deriving DecidableEq

/-- Apply one operation to the room item, keeping only the room state. -/
def applyRoomOp (room : Option RoomRecord) : RoomOp → Option RoomRecord
  | .httpJoin => (join_room room).2
  | .httpLeave => (leave_room room).2
  | .wsConnect => (connect_handler (some "r") room).2.1
  | .wsDisconnect => (disconnect_handler (some "r") room).2

/-- Apply a sequence of operations. -/
def applyRoomOps (ops : List RoomOp) (room : Option RoomRecord) : Option RoomRecord :=
  ops.foldl applyRoomOp room

/-- The participant counter is non-negative (vacuously for a missing room). -/
def roomNonneg : Option RoomRecord → Prop
  | none => True
  | some r => 0 ≤ r.active_participants

instance : DecidablePred roomNonneg := by
  intro room
  cases room with
  | none => exact isTrue trivial
  | some r => exact inferInstanceAs (Decidable (0 ≤ r.active_participants))

/-! ## Invariants and concrete fixture states -/

/-- At most one live call per conversation: no two rows of the calls table are
both live for the same conversation. -/
def liveInvariant (calls : List CallRecord) : Prop :=
  List.Pairwise
    (fun a b => ¬(a.conversation_id = b.conversation_id ∧
                  isLive a.status = true ∧ isLive b.status = true)) calls

/-- Empty connection manager. -/
def emptyManager : ConnectionManager :=
  { user_connections := [], sid_to_user := [], conversation_rooms := [] }

/-- Fixture: user 1 is connected as "sA"; user 2 has no live session; call 7
has no signaling state yet. -/
def stOfflineTarget : ServerState :=
  { manager := { user_connections := [(1, "sA")], sid_to_user := [("sA", 1)]
                 conversation_rooms := [] }
    webrtc := { active_calls := [], pending_ice_candidates := [] }
    calls := []
    participants := []
    messages := []
    next_message_id := 1 }

/-- Fixture: user 1 connected as "sA", member of room 42, sole peer of call 7. -/
def stConnectedInRoomAndCall : ServerState :=
  { manager := { user_connections := [(1, "sA")], sid_to_user := [("sA", 1)]
                 conversation_rooms := [(42, ["sA"])] }
    webrtc := { active_calls := [(7, [(1, "offer")])], pending_ice_candidates := [] }
    calls := [{ id := 7, conversation_id := 42, initiator_id := some 1,
                status := CallStatus.active, started_at := some 100,
                ended_at := none, duration := none }]
    participants := [(42, 1)]
    messages := []
    next_message_id := 1 }

/-- Fixture: calls table holding one ENDED and one REJECTED call, user 1 a
participant of both conversations. -/
def dbTerminalCalls : RouterDb :=
  { calls :=
      [{ id := 1, conversation_id := 42, initiator_id := some 1,
         status := CallStatus.ended, started_at := some 100,
         ended_at := some 150, duration := some 50 },
       { id := 2, conversation_id := 43, initiator_id := some 1,
         status := CallStatus.rejected, started_at := some 100,
         ended_at := some 150, duration := none }]
    participants := [(42, 1), (43, 1)]
    next_call_id := 3 }

/-- Fixture: one live (INITIATED) call for conversation 42, user 1 a participant. -/
def dbLiveCall : RouterDb :=
  { calls :=
      [{ id := 1, conversation_id := 42, initiator_id := some 1,
         status := CallStatus.initiated, started_at := some 100,
         ended_at := none, duration := none }]
    participants := [(42, 1)]
    next_call_id := 2 }

/-- Fixture: users 1 ("sA") and 2 ("sB") connected, both participants of
conversation 42, no room joined yet. -/
def stTwoUsers : ServerState :=
  { manager := { user_connections := [(1, "sA"), (2, "sB")]
                 sid_to_user := [("sA", 1), ("sB", 2)]
                 conversation_rooms := [] }
    webrtc := { active_calls := [], pending_ice_candidates := [] }
    calls := []
    participants := [(42, 1), (42, 2)]
    messages := []
    next_message_id := 1 }

/-- The fixture after both users issued `join_conversation{conversation_id:42}`. -/
def stTwoUsersJoined : ServerState :=
  (ws_join_conversation "sB" (some 42) (ws_join_conversation "sA" (some 42) stTwoUsers).2).2

/-! ## Map lemmas -/

theorem mapGet_mapSet_self {α β : Type} [DecidableEq α] (k : α) (v : β) (m : List (α × β)) :
    mapGet k (mapSet k v m) = some v := by
  simp [mapGet, mapSet, List.find?]

theorem mapGet_mapSet_ne {α β : Type} [DecidableEq α] {k k2 : α} (v : β) (m : List (α × β))
    (h : k2 ≠ k) : mapGet k2 (mapSet k v m) = mapGet k2 m := by
  unfold mapGet mapSet
  rw [List.find?_cons_of_neg _ (by simpa using fun hk => h hk.symm)]
  induction m with
  | nil => rfl
  | cons p rest ih =>
    by_cases hp : p.1 = k
    · rw [List.filter_cons_of_neg (by simp [hp]),
          List.find?_cons_of_neg _
            (by simp only [decide_eq_true_eq]; exact fun hh => h (hh.symm.trans hp))]
      exact ih
    · rw [List.filter_cons_of_pos (by simp [hp])]
      by_cases hq : p.1 = k2
      · rw [List.find?_cons_of_pos _ (by simp [hq]), List.find?_cons_of_pos _ (by simp [hq])]
      · rw [List.find?_cons_of_neg _ (by simp [hq]), List.find?_cons_of_neg _ (by simp [hq])]
        exact ih

theorem mapGet_mapErase_self {α β : Type} [DecidableEq α] (k : α) (m : List (α × β)) :
    mapGet k (mapErase k m) = none := by
  unfold mapGet mapErase
  rw [List.find?_eq_none.mpr]
  · rfl
  · intro x hx
    have hmem := List.of_mem_filter hx
    simp only [decide_eq_true_eq] at hmem ⊢
    exact hmem

/-! ## C7: register then unregister -/

/-- C7 (amended): for every session id, every NONZERO user id and every
registry state, `register` (add_connection) followed by `unregister`
(remove_connection) leaves no trace: the forward map has no entry for the
user id and the reverse map none for the session id. -/
theorem register_unregister_no_trace (m : ConnectionManager) (s : String) (u : Nat)
    (hu : u ≠ 0) :
    get_user_sid u (remove_connection s (add_connection s u m)) = none ∧
    get_user_id s (remove_connection s (add_connection s u m)) = none := by
  have h1 : mapGet s (add_connection s u m).sid_to_user = some u :=
    mapGet_mapSet_self s u m.sid_to_user
  unfold get_user_sid get_user_id remove_connection
  rw [h1]
  simp only [if_pos hu]
  exact ⟨mapGet_mapErase_self u _, mapGet_mapErase_self s _⟩

/-- C7 witness: concrete application at session "s1", user 1, empty registry. -/
theorem register_unregister_no_trace_witness :
    get_user_sid 1 (remove_connection "s1" (add_connection "s1" 1 emptyManager)) = none ∧
    get_user_id "s1" (remove_connection "s1" (add_connection "s1" 1 emptyManager)) = none :=
  register_unregister_no_trace emptyManager "s1" 1 (by decide)

/-- C7 counterexample: for user id 0 the claim fails.  `remove_connection`
guards the forward-map removal with Python truthiness (`if user_id:`), which
is false for 0, so after register("s1", 0) then unregister("s1") the forward
map still maps user 0 to "s1" — not "no trace of that session". -/
theorem register_unregister_user_zero_keeps_forward :
    get_user_sid 0 (remove_connection "s1" (add_connection "s1" 0 emptyManager)) = some "s1" := by
  rfl

/-! ## C6: re-register supersedes the forward binding only -/

/-- C6 (amended): registering a new session for an already-bound user replaces
the forward binding — `lookup_session` returns the new sid and exactly one
forward entry remains for that user — but the OLD session's reverse-lookup
entry is NOT dropped: `lookup_user(old_sid)` still returns the user. -/
theorem register_supersedes_keeps_stale_reverse (m : ConnectionManager)
    (s1 s2 : String) (u : Nat) (h1 : get_user_id s1 m = some u) (hne : s1 ≠ s2) :
    get_user_sid u (add_connection s2 u m) = some s2 ∧
    (add_connection s2 u m).user_connections.countP (fun p => decide (p.1 = u)) = 1 ∧
    get_user_id s1 (add_connection s2 u m) = some u := by
  refine ⟨mapGet_mapSet_self u s2 m.user_connections, ?_, ?_⟩
  · unfold add_connection mapSet
    rw [List.countP_cons_of_pos _ _ (by simp)]
    rw [List.countP_eq_zero.mpr]
    intro x hx
    have hmem := List.of_mem_filter hx
    simp only [decide_eq_true_eq] at hmem ⊢
    exact hmem
  · show mapGet s1 (mapSet s2 u m.sid_to_user) = some u
    rw [mapGet_mapSet_ne u m.sid_to_user hne]
    exact h1

/-- C6 witness: user 1 bound to "s1", then re-registered as "s2". -/
theorem register_supersedes_keeps_stale_reverse_witness :
    get_user_sid 1 (add_connection "s2" 1 (add_connection "s1" 1 emptyManager)) = some "s2" ∧
    (add_connection "s2" 1 (add_connection "s1" 1 emptyManager)).user_connections.countP
      (fun p => decide (p.1 = 1)) = 1 ∧
    get_user_id "s1" (add_connection "s2" 1 (add_connection "s1" 1 emptyManager)) = some 1 :=
  register_supersedes_keeps_stale_reverse (add_connection "s1" 1 emptyManager) "s1" "s2" 1
    (by rfl) (by decide)

/-- C6 counterexample: after user 1 re-registers from "s1" to "s2", the claim
says `lookup_user("s1")` is dropped from the registry; in the code
`add_connection` never touches the old reverse entry, so it still returns
user 1. -/
theorem register_old_reverse_entry_not_dropped :
    get_user_id "s1" (add_connection "s2" 1 (add_connection "s1" 1 emptyManager)) = some 1 := by
  rfl

/-! ## C9: room participant counters never go negative -/

theorem roomNonneg_applyRoomOp (room : Option RoomRecord) (op : RoomOp)
    (h : roomNonneg room) : roomNonneg (applyRoomOp room op) := by
  cases op with
  | httpJoin =>
    cases room with
    | none => exact h
    | some r =>
      simp only [applyRoomOp, join_room]
      by_cases hfull : r.active_participants ≥ r.max_participants
      · rw [if_pos hfull]; exact h
      · rw [if_neg hfull]
        by_cases hst : r.room_status ≠ "active"
        · rw [if_pos hst]; exact h
        · rw [if_neg hst]
          simp only [roomNonneg] at h ⊢
          omega
  | httpLeave =>
    cases room with
    | none => exact h
    | some r =>
      simp only [applyRoomOp, leave_room]
      by_cases hpos : r.active_participants > 0
      · rw [if_pos hpos]
        simp only [roomNonneg] at h ⊢
        omega
      · rw [if_neg hpos]; exact h
  | wsConnect =>
    cases room with
    | none => exact h
    | some r =>
      simp only [applyRoomOp, connect_handler]
      by_cases hfull : r.active_participants ≥ r.max_participants
      · rw [if_pos hfull]; exact h
      · rw [if_neg hfull]
        simp only [roomNonneg] at h ⊢
        omega
  | wsDisconnect =>
    cases room with
    | none => exact h
    | some r =>
      simp only [applyRoomOp, disconnect_handler]
      by_cases hpos : r.active_participants > 0
      · rw [if_pos hpos]
        simp only [roomNonneg] at h ⊢
        omega
      · rw [if_neg hpos]; exact h

/-- C9: under any sequence of join/leave/connect/disconnect operations the
room's participant counter stays non-negative, and a decrement arriving when
the counter is already 0 is a successful no-op: `leave_room` returns
200 'Left room successfully' and leaves the counter at 0. -/
theorem room_counter_never_negative (ops : List RoomOp) (room : Option RoomRecord)
    (h : roomNonneg room) :
    roomNonneg (applyRoomOps ops room) ∧
    (∀ r : RoomRecord, r.active_participants = 0 →
      leave_room (some r) =
        ({ statusCode := 200, body := "Left room successfully" }, some r)) := by
  constructor
  · induction ops generalizing room with
    | nil => exact h
    | cons op rest ih =>
      exact ih (applyRoomOp room op) (roomNonneg_applyRoomOp room op h)
  · intro r hr
    simp [leave_room, hr]

/-- C9 witness: a join/joins/leaves run starting from a fresh room with
counter 0, plus the decrement-at-zero no-op at a concrete room. -/
theorem room_counter_never_negative_witness :
    roomNonneg (applyRoomOps
      [RoomOp.httpLeave, RoomOp.httpJoin, RoomOp.wsConnect, RoomOp.wsDisconnect,
       RoomOp.httpLeave, RoomOp.httpLeave]
      (some { active_participants := 0, max_participants := 2, room_status := "active" })) ∧
    (∀ r : RoomRecord, r.active_participants = 0 →
      leave_room (some r) =
        ({ statusCode := 200, body := "Left room successfully" }, some r)) :=
  room_counter_never_negative
    [RoomOp.httpLeave, RoomOp.httpJoin, RoomOp.wsConnect, RoomOp.wsDisconnect,
     RoomOp.httpLeave, RoomOp.httpLeave]
    (some { active_participants := 0, max_participants := 2, room_status := "active" })
    (by decide)

/-! ## C10: room capacity limit (implicit in the code, absent from the spec) -/

/-- C10: joining or connecting to a room whose `active_participants` is at or
above `max_participants` is refused with 403 'Room is full'; the counter is
not incremented (the room item is returned unchanged) and, on the websocket
path, no connection record is stored. -/
theorem room_capacity_enforced (r : RoomRecord) (rid : String)
    (hfull : r.active_participants ≥ r.max_participants) :
    join_room (some r) = ({ statusCode := 403, body := "Room is full" }, some r) ∧
    connect_handler (some rid) (some r) =
      ({ statusCode := 403, body := "Room is full" }, some r, false) := by
  constructor
  · simp [join_room, hfull]
  · simp [connect_handler, hfull]

/-- C10 witness: a full 2-person room. -/
theorem room_capacity_enforced_witness :
    join_room (some { active_participants := 2, max_participants := 2, room_status := "active" }) =
      ({ statusCode := 403, body := "Room is full" },
       some { active_participants := 2, max_participants := 2, room_status := "active" }) ∧
    connect_handler (some "r1")
        (some { active_participants := 2, max_participants := 2, room_status := "active" }) =
      ({ statusCode := 403, body := "Room is full" },
       some { active_participants := 2, max_participants := 2, room_status := "active" }, false) :=
  room_capacity_enforced
    { active_participants := 2, max_participants := 2, room_status := "active" } "r1" (by decide)

/-! ## C1: ICE candidate for an unreachable target -/

/-- C1 (evaluation at the failing input): user 1 ("sA") sends
`ice_candidate{call_id:7, target_user_id:2, candidate}` while user 2 has no
live session.  The handler returns success, emits nothing, and leaves the
whole state — in particular the (7,2) Pending ICE Candidate Queue, which
stays absent — unchanged: the candidate is dropped, `add_ice_candidate` is
never invoked on this path. -/
theorem ice_candidate_offline_target_dropped :
    ws_ice_candidate "sA" (some 7) (some 2) (some "candidate-1") stOfflineTarget =
      (HandlerResult.ok "sent", stOfflineTarget, []) ∧
    (ws_ice_candidate "sA" (some 7) (some 2) (some "candidate-1")
        stOfflineTarget).2.1.webrtc.pending_ice_candidates = [] := by
  exact ⟨rfl, rfl⟩

/-! ## C4: disconnect teardown -/

/-- C4 (amended): handling a disconnect removes the session from the
Connection Registry in both directions (for a nonzero bound user) and does
NOTHING else: every room membership set, the signaling peer sets and the
calls table are left exactly as they were — there is no room removal, no
peer removal and no call auto-termination on disconnect. -/
theorem disconnect_removes_registry_only (st : ServerState) (sid : String) (u : Nat)
    (hu : get_user_id sid st.manager = some u) (h0 : u ≠ 0) :
    get_user_id sid (ws_disconnect sid st).manager = none ∧
    get_user_sid u (ws_disconnect sid st).manager = none ∧
    (ws_disconnect sid st).manager.conversation_rooms = st.manager.conversation_rooms ∧
    (ws_disconnect sid st).webrtc = st.webrtc ∧
    (ws_disconnect sid st).calls = st.calls := by
  have hu2 : mapGet sid st.manager.sid_to_user = some u := hu
  unfold ws_disconnect remove_connection
  rw [hu2]
  simp only [if_pos h0]
  exact ⟨mapGet_mapErase_self sid _, mapGet_mapErase_self u _, by trivial, by trivial, by trivial⟩

/-- C4 witness: the connected fixture, session "sA" of user 1. -/
theorem disconnect_removes_registry_only_witness :
    get_user_id "sA" (ws_disconnect "sA" stConnectedInRoomAndCall).manager = none ∧
    get_user_sid 1 (ws_disconnect "sA" stConnectedInRoomAndCall).manager = none ∧
    (ws_disconnect "sA" stConnectedInRoomAndCall).manager.conversation_rooms =
      stConnectedInRoomAndCall.manager.conversation_rooms ∧
    (ws_disconnect "sA" stConnectedInRoomAndCall).webrtc = stConnectedInRoomAndCall.webrtc ∧
    (ws_disconnect "sA" stConnectedInRoomAndCall).calls = stConnectedInRoomAndCall.calls :=
  disconnect_removes_registry_only stConnectedInRoomAndCall "sA" 1 (by rfl) (by decide)

/-- C4 counterexample: session "sA" (user 1) is registered, sits in room 42's
membership set and is the sole peer of call 7.  After its disconnect the
registry entry is gone but the room set still contains "sA" and user 1 is
still a peer of call 7 — refuting "removed from every room's membership set,
removed as a peer from every active call". -/
theorem disconnect_no_room_or_call_teardown :
    get_user_id "sA" (ws_disconnect "sA" stConnectedInRoomAndCall).manager = none ∧
    (ws_disconnect "sA" stConnectedInRoomAndCall).manager.conversation_rooms =
      [(42, ["sA"])] ∧
    (ws_disconnect "sA" stConnectedInRoomAndCall).webrtc.active_calls =
      [(7, [(1, "offer")])] := by
  exact ⟨rfl, rfl, rfl⟩

/-! ## C8: send_message fan-out in the two-user scenario -/

/-- C8 (amended): in the scenario where users A ("sA") and B ("sB") have both
joined conversation 42, A's `send_message{conversation_id:42, content:"hi"}`
succeeds and the `new_message` event is delivered to BOTH B and A: the
broadcast does not exclude the sender (no skip_sid on the emit). -/
theorem send_message_delivered_to_both :
    (ws_send_message "sA" (some 42) (some "hi") stTwoUsersJoined).1 =
      HandlerResult.ok "sent" ∧
    (ws_send_message "sA" (some 42) (some "hi") stTwoUsersJoined).2.2 =
      [{ event := "new_message", recipient := "sA" },
       { event := "new_message", recipient := "sB" }] := by
  exact ⟨rfl, rfl⟩

/-- C8 counterexample: the sender's own session "sA" is among the recipients
of `new_message`, refuting "A does not receive it". -/
theorem send_message_sender_receives :
    ({ event := "new_message", recipient := "sA" } : Emit) ∈
      (ws_send_message "sA" (some 42) (some "hi") stTwoUsersJoined).2.2 := by
  decide

/-! ## C2: admission control at initiate -/

/-- C2: `initiate_call` preserves the at-most-one-live-call-per-conversation
invariant, and whenever the caller is a participant and some live
(INITIATED/RINGING/ACTIVE) call already exists for the conversation, it
fails with CallAlreadyActive and leaves the database — in particular the
calls table — unchanged, creating no call record. -/
theorem initiate_call_admission (db : RouterDb) (u c now : Nat) :
    (liveInvariant db.calls → liveInvariant (initiate_call u c now db).2.calls) ∧
    (isParticipant db.participants c u = true →
      (∃ k ∈ db.calls, k.conversation_id = c ∧ isLive k.status = true) →
      (initiate_call u c now db).1 = Except.error CallError.callAlreadyActive ∧
      (initiate_call u c now db).2 = db) := by
  unfold initiate_call
  by_cases hp : isParticipant db.participants c u = true
  · rw [if_neg (by simp [hp])]
    cases hfind : db.calls.find?
        (fun k => decide (k.conversation_id = c) && isLive k.status) with
    | some k =>
      exact ⟨fun hinv => hinv, fun _ _ => ⟨rfl, rfl⟩⟩
    | none =>
      constructor
      · intro hinv
        unfold liveInvariant at hinv ⊢
        rw [List.pairwise_append]
        refine ⟨hinv, List.pairwise_singleton _ _, ?_⟩
        intro a ha b hb
        simp only [List.mem_singleton] at hb
        subst hb
        intro hcon
        have hnone := List.find?_eq_none.mp hfind a ha
        simp only [Bool.and_eq_true, decide_eq_true_eq, not_and] at hnone
        exact hnone hcon.1 hcon.2.1
      · intro _ hex
        obtain ⟨k, hk, hkc, hkl⟩ := hex
        have hnone := List.find?_eq_none.mp hfind k hk
        simp only [Bool.and_eq_true, decide_eq_true_eq, not_and] at hnone
        exact absurd hkl (hnone hkc)
  · rw [if_pos (by simpa using hp)]
    exact ⟨fun hinv => hinv, fun hpart _ => absurd hpart hp⟩

/-- C2 witness: conversation 42 already has an INITIATED call; a second
initiate by participant 1 fails with CallAlreadyActive, leaves the database
unchanged, and the invariant is preserved. -/
theorem initiate_call_admission_witness :
    liveInvariant (initiate_call 1 42 200 dbLiveCall).2.calls ∧
    (initiate_call 1 42 200 dbLiveCall).1 = Except.error CallError.callAlreadyActive ∧
    (initiate_call 1 42 200 dbLiveCall).2 = dbLiveCall :=
  ⟨(initiate_call_admission dbLiveCall 1 42 200).1 (by unfold liveInvariant; decide),
   (initiate_call_admission dbLiveCall 1 42 200).2 (by decide) (by decide)⟩

/-! ## C3: transition guards -/

/-- C3 counterexample: on a call already in the terminal state ENDED (id 1)
`reject` succeeds and overwrites the status to REJECTED, and on a call in the
terminal state REJECTED (id 2) `end` succeeds and overwrites the status to
ENDED — neither fails with InvalidTransition, and ended_at is rewritten. -/
theorem terminal_calls_reject_end_succeed :
    (reject_call 1 1 200 dbTerminalCalls).1 =
      Except.ok { id := 1, conversation_id := 42, initiator_id := some 1,
                  status := CallStatus.rejected, started_at := some 100,
                  ended_at := some 200, duration := some 50 } ∧
    (end_call 1 2 none 200 dbTerminalCalls).1 =
      Except.ok { id := 2, conversation_id := 43, initiator_id := some 1,
                  status := CallStatus.ended, started_at := some 100,
                  ended_at := some 200, duration := none } := by
  exact ⟨rfl, rfl⟩

/-- C3 (amended): only `accept` carries a status guard — attempted with
status outside {INITIATED, RINGING} it fails with InvalidTransition and
leaves the database unchanged.  `reject` and `end` perform no status check at
all: for any existing call whose caller is a participant they succeed from
every status (terminal ones included), overwriting status and ended_at
(and, for `end`, duration when a truthy one is supplied). -/
theorem call_transition_guards (db : RouterDb) (u cid now : Nat) (d : Option Nat)
    (rec : CallRecord)
    (hrec : findCall cid db.calls = some rec)
    (hpart : isParticipant db.participants rec.conversation_id u = true) :
    (rec.status ≠ CallStatus.initiated → rec.status ≠ CallStatus.ringing →
      (accept_call u cid db).1 = Except.error CallError.invalidTransition ∧
      (accept_call u cid db).2 = db) ∧
    (reject_call u cid now db).1 =
      Except.ok { rec with status := CallStatus.rejected, ended_at := some now } ∧
    (end_call u cid d now db).1 =
      Except.ok { rec with
                  status := CallStatus.ended
                  ended_at := some now
                  duration := if truthyNat d then d else rec.duration } := by
  have hp2 : ¬¬(isParticipant db.participants rec.conversation_id u = true) := by
    simp [hpart]
  refine ⟨fun h1 h2 => ?_, ?_, ?_⟩
  · unfold accept_call
    rw [hrec]
    dsimp only
    rw [if_neg hp2, if_pos ⟨h1, h2⟩]
    exact ⟨rfl, rfl⟩
  · unfold reject_call
    rw [hrec]
    dsimp only
    rw [if_neg hp2]
  · unfold end_call
    rw [hrec]
    dsimp only
    rw [if_neg hp2]

/-- C3 witness: call 1 of the fixture is ENDED, so accept fails with
InvalidTransition and changes nothing, while reject and end both succeed on
the same terminal call. -/
theorem call_transition_guards_witness :
    (accept_call 1 1 dbTerminalCalls).1 = Except.error CallError.invalidTransition ∧
    (accept_call 1 1 dbTerminalCalls).2 = dbTerminalCalls ∧
    (reject_call 1 1 200 dbTerminalCalls).1 =
      Except.ok { id := 1, conversation_id := 42, initiator_id := some 1,
                  status := CallStatus.rejected, started_at := some 100,
                  ended_at := some 200, duration := some 50 } ∧
    (end_call 1 1 (some 30) 200 dbTerminalCalls).1 =
      Except.ok { id := 1, conversation_id := 42, initiator_id := some 1,
                  status := CallStatus.ended, started_at := some 100,
                  ended_at := some 200, duration := some 30 } :=
  have h := call_transition_guards dbTerminalCalls 1 1 200 (some 30)
    { id := 1, conversation_id := 42, initiator_id := some 1,
      status := CallStatus.ended, started_at := some 100,
      ended_at := some 150, duration := some 50 } (by rfl) (by decide)
  ⟨(h.1 (by decide) (by decide)).1, (h.1 (by decide) (by decide)).2, h.2.1, h.2.2⟩

/-! ## C5: last peer leaving terminates the call -/

theorem endCallDbUpdate_id (t1 t2 : Nat) (k : CallRecord) :
    (endCallDbUpdate t1 t2 k).id = k.id := by
  unfold endCallDbUpdate
  by_cases hk : k.status ≠ CallStatus.ended
  · rw [if_pos hk]
  · rw [if_neg hk]

theorem findCall_updateFirstCall (cid : Nat) (f : CallRecord → CallRecord)
    (hf : ∀ k, (f k).id = k.id) (l : List CallRecord) :
    findCall cid (updateFirstCall cid f l) = (findCall cid l).map f := by
  induction l with
  | nil => rfl
  | cons k rest ih =>
    unfold updateFirstCall findCall
    by_cases hk : k.id = cid
    · rw [if_pos hk]
      rw [List.find?_cons_of_pos _ (by simp [hf k, hk]),
          List.find?_cons_of_pos _ (by simp [hk])]
      rfl
    · rw [if_neg hk]
      rw [List.find?_cons_of_neg _ (by simp [hk]),
          List.find?_cons_of_neg _ (by simp [hk])]
      exact ih

theorem updateFirstCall_of_found_fixed (cid : Nat) (f : CallRecord → CallRecord)
    (l : List CallRecord) (rec : CallRecord)
    (hrec : findCall cid l = some rec) (hfix : f rec = rec) :
    updateFirstCall cid f l = l := by
  induction l with
  | nil => rfl
  | cons k rest ih =>
    unfold updateFirstCall
    by_cases hk : k.id = cid
    · rw [if_pos hk]
      unfold findCall at hrec
      rw [List.find?_cons_of_pos _ (by simp [hk])] at hrec
      rw [Option.some.inj hrec, hfix]
    · rw [if_neg hk]
      have hrec2 : findCall cid rest = some rec := by
        unfold findCall at hrec ⊢
        rwa [List.find?_cons_of_neg _ (by simp [hk])] at hrec
      rw [ih hrec2]

/-- C5: when a `call_ended` event removes the last peer of call `cid` (the
peer set is empty after the removal) and the call record exists: if its
status is not already ENDED, the committed record has status ENDED,
ended_at = t1, and a duration within 1 second of ended_at - started_at
(given the two utcnow reads t1 ≤ t2 are at most 1s apart); if the status is
already ENDED the calls table is left unchanged (idempotent guard). -/
theorem last_peer_leave_terminates_call (st : ServerState) (sid : String) (u cid : Nat)
    (t1 t2 : Nat) (rec : CallRecord) (s : Nat)
    (hu : get_user_id sid st.manager = some u) (h0 : u ≠ 0) (hcid : cid ≠ 0)
    (hempty : get_call_peers cid (remove_peer_from_call cid u st.webrtc) = [])
    (hrec : findCall cid st.calls = some rec)
    (hs : rec.started_at = some s)
    (hst : s ≤ t1) (h12 : t1 ≤ t2) (htol : t2 - t1 ≤ 1) :
    (rec.status ≠ CallStatus.ended →
      ∃ rec2,
        findCall cid (ws_call_ended sid (some cid) t1 t2 st).2.1.calls = some rec2 ∧
        rec2.status = CallStatus.ended ∧
        rec2.ended_at = some t1 ∧
        ∃ dur, rec2.duration = some dur ∧ dur - (t1 - s) ≤ 1 ∧ (t1 - s) - dur ≤ 1) ∧
    (rec.status = CallStatus.ended →
      (ws_call_ended sid (some cid) t1 t2 st).2.1.calls = st.calls) := by
  have hred : (ws_call_ended sid (some cid) t1 t2 st).2.1.calls =
      updateFirstCall cid (endCallDbUpdate t1 t2) st.calls := by
    unfold ws_call_ended
    rw [hu]
    dsimp only
    rw [if_neg h0]
    rw [if_neg (show ¬¬(truthyNat (some cid) = true) by simp [truthyNat, hcid])]
    simp only [Option.getD_some]
    rw [hempty]
    try dsimp only
    rw [if_pos rfl]
  constructor
  · intro hne
    rw [hred, findCall_updateFirstCall cid _ (endCallDbUpdate_id t1 t2) st.calls, hrec]
    refine ⟨endCallDbUpdate t1 t2 rec, rfl, ?_, ?_, ?_⟩
    · unfold endCallDbUpdate
      rw [if_pos hne]
    · unfold endCallDbUpdate
      rw [if_pos hne]
    · unfold endCallDbUpdate
      rw [if_pos hne]
      refine ⟨t2 - s, ?_, ?_, ?_⟩
      · dsimp only
        rw [hs]
      · omega
      · omega
  · intro he
    rw [hred]
    apply updateFirstCall_of_found_fixed cid _ st.calls rec hrec
    unfold endCallDbUpdate
    rw [if_neg (by simp [he])]

/-- C5 witness: user 1 is the sole peer of ACTIVE call 7 started at t=100;
its `call_ended` at t1 = t2 = 200 commits status ENDED, ended_at 200 and
duration 100. -/
theorem last_peer_leave_terminates_call_witness :
    ∃ rec2,
      findCall 7 (ws_call_ended "sA" (some 7) 200 200 stConnectedInRoomAndCall).2.1.calls =
        some rec2 ∧
      rec2.status = CallStatus.ended ∧
      rec2.ended_at = some 200 ∧
      ∃ dur, rec2.duration = some dur ∧ dur - (200 - 100) ≤ 1 ∧ (200 - 100) - dur ≤ 1 :=
  (last_peer_leave_terminates_call stConnectedInRoomAndCall "sA" 1 7 200 200
      { id := 7, conversation_id := 42, initiator_id := some 1,
        status := CallStatus.active, started_at := some 100,
        ended_at := none, duration := none } 100
      (by rfl) (by decide) (by decide) (by rfl) (by rfl) (by rfl)
      (by decide) (by decide) (by decide)).1 (by decide)

end InterviewMe
